import Mathlib

/-
Verification of the Face to the Mat match-resolution engine.

Shallow embedding of the relevant parts of the repository:
  src/wrestler_manager.py  (Wrestler, Wrestler.score, has_skill, specialty_points)
  src/card_manager.py      (Card, Card.get_points, CardManager, draw_card)
  src/game_utilities.py    (PIN_RANGES, get_pin_range)
  src/game_logic.py        (Game: play_turn, _attempt_pin, _attempt_finisher,
                            _resolve_submission_card, _resolve_tiebreaker,
                            _resolve_tiebreaker_without_move, _resolve_helped_card,
                            _helped_card_logic, _move_wrestler, set_wrestler_position)

Python mutable objects become Lean structures with explicit state passing.
Dice rolls (random.randint) become explicit roll parameters; the unbounded
submission loop consumes an explicit list of rolls and returns none when the
list is exhausted before an escape roll occurs.  random.shuffle is modelled
as an arbitrary function parameter, constrained to be a permutation where a
property needs that fact.
-/

namespace FttM

/-- TV grades, ordinal scale AAA best down to F worst
(game_utilities.py TV_GRADES). -/
inductive TVGrade
  | AAA | AA | A | B | C | D | E | F
deriving DecidableEq, BEq, Repr

/-- Wrestler match state (wrestler_manager.py, class Wrestler).
Fields not used by the engine paths under verification (sex, height, weight,
hometown, image, allies, rivals) are omitted.  skills is the dict
skill name to zone type, keys lowercased at load; specialty models the
optional dict with name and integer points; finisher models the optional
dict with an inclusive two-digit roll range. -/
structure Wrestler where
  name : String
  tv_grade : TVGrade
  grudge_grade : Int
  skills : List (String × String)
  specialty : Option (String × Int) := none
  finisher : Option (Nat × Nat) := none
  position : Int := 0
  last_card_scored : Bool := false
  is_title_holder : Bool := false
deriving DecidableEq, Repr

/-- Wrestler.score (wrestler_manager.py lines 171-181):
position += points; position = min(position, 15); last_card_scored = True.
There is no lower clamp in this method. -/
def Wrestler.score (w : Wrestler) (points : Int) : Wrestler :=
  { w with position := min (w.position + points) 15, last_card_scored := true }

/-- Wrestler.has_skill (wrestler_manager.py): skill in self.skills
(dict key membership; the engine passes lowercase skill names and the
constructor lowercases keys). -/
def Wrestler.has_skill (w : Wrestler) (s : String) : Bool :=
  (w.skills.map Prod.fst).contains s

/-- Wrestler.specialty_points (wrestler_manager.py):
int(self.specialty.get(points key, 0)). -/
def Wrestler.specialty_points (w : Wrestler) : Int :=
  (w.specialty.map Prod.snd).getD 0

/-- A sequence of calls to Wrestler.score, one per point value in the list. -/
def scoreSeq (w : Wrestler) (pts : List Int) : Wrestler :=
  pts.foldl Wrestler.score w

/-- A concrete wrestler used to evaluate theorems on concrete inputs. -/
def sampleWrestler : Wrestler :=
  { name := "Sample", tv_grade := TVGrade.B, grudge_grade := 0, skills := [] }

/-- Helper: one score call keeps the position within bounds when the added
points are nonnegative, and never pushes it above 15. -/
theorem score_position_bounds (w : Wrestler) (p : Int)
    (h0 : 0 ≤ w.position) (hp : 0 ≤ p) :
    0 ≤ (w.score p).position ∧ (w.score p).position ≤ 15 := by
  constructor
  · exact le_min (by omega) (by omega)
  · exact min_le_right _ _

/-- Helper: the bounds are preserved by any sequence of nonnegative scores. -/
theorem scoreSeq_bounds (pts : List Int) :
    ∀ w : Wrestler, 0 ≤ w.position → w.position ≤ 15 →
      (∀ p ∈ pts, 0 ≤ p) →
      0 ≤ (scoreSeq w pts).position ∧ (scoreSeq w pts).position ≤ 15 := by
  induction pts with
  | nil => exact fun w h0 h15 _ => ⟨h0, h15⟩
  | cons p ps ih =>
      intro w h0 h15 hpts
      have hp : 0 ≤ p := hpts p (by simp)
      have h1 := score_position_bounds w p h0 hp
      exact ih (w.score p) h1.1 h1.2 (fun q hq => hpts q (by simp [hq]))

/-- C1 (counterexample): the claim states the position stays in [0,15] after
each call to Wrestler.score for arbitrary integer point values.  Starting at
position 0, a single call with points = -1 yields position -1, outside the
interval: the method clamps only at the top (min with 15), never at 0. -/
theorem C1_counterexample :
    (Wrestler.score { sampleWrestler with position := 0 } (-1)).position = -1 ∧
    ¬ (0 ≤ (Wrestler.score { sampleWrestler with position := 0 } (-1)).position) := by
  constructor <;> decide

/-- C1 (amended): every call to Wrestler.score leaves the position at most 15;
and for every sequence of calls with nonnegative point values, a position
starting in [0,15] stays in [0,15] after each call (every prefix of the
sequence is itself such a sequence).  Negative point values can push the
position below 0; Game.play_turn separately re-clamps positions into [0,15]
at the end of each turn. -/
theorem C1_position_bounds (w : Wrestler) (pts : List Int)
    (h0 : 0 ≤ w.position) (h15 : w.position ≤ 15)
    (hpts : ∀ p ∈ pts, 0 ≤ p) :
    (∀ (v : Wrestler) (q : Int), (v.score q).position ≤ 15) ∧
    0 ≤ (scoreSeq w pts).position ∧ (scoreSeq w pts).position ≤ 15 := by
  refine ⟨fun v q => min_le_right _ _, ?_⟩
  exact scoreSeq_bounds pts w h0 h15 hpts

/-- C1 witness: the amended theorem evaluated on a concrete wrestler and a
concrete sequence of nonnegative point values. -/
theorem C1_position_bounds_witness :
    (∀ (v : Wrestler) (q : Int), (v.score q).position ≤ 15) ∧
    0 ≤ (scoreSeq sampleWrestler [3, 0, 20]).position ∧
    (scoreSeq sampleWrestler [3, 0, 20]).position ≤ 15 :=
  C1_position_bounds sampleWrestler [3, 0, 20] (by decide) (by decide) (by decide)

/-- The two principals of a match.  The Python engine stores direct object
references (self.favored_wrestler, self.underdog_wrestler, self.in_control);
since in the resolution paths in_control references one of the two
principals, a side tag identifies the referenced wrestler. -/
inductive Side
  | favored | underdog
deriving DecidableEq, Repr

/-- The opponent of a side (the Python pattern
opponent = underdog if wrestler == favored else favored). -/
def Side.other : Side → Side
  | Side.favored => Side.underdog
  | Side.underdog => Side.favored

/-- Card point payload (card_manager.py, Card.points): None, a fixed number,
a dict from TV grade to points, or the string d6 meaning roll one die. -/
inductive CardPoints
  | none
  | fixed (n : Int)
  | perGrade (m : List (TVGrade × Int))
  | d6
deriving DecidableEq, Repr

/-- Fast Action Card (card_manager.py, class Card).  is_submission is the
derived flag: the card text contains the submission marker. -/
structure Card where
  id : Nat
  control : Bool
  type : String
  points : CardPoints := CardPoints.none
  text : Option String := none
  is_submission : Bool := false
deriving DecidableEq, Repr

/-- Card.get_points (card_manager.py lines 31-47): dict payload looks the TV
grade up with default 0; the d6 payload rolls one die (the roll is passed in
explicitly here); a fixed number is returned as is; no payload gives 0. -/
def Card.get_points (c : Card) (grade : TVGrade) (d6roll : Nat) : Int :=
  match c.points with
  | CardPoints.none => 0
  | CardPoints.fixed n => n
  | CardPoints.perGrade m =>
      match m.find? (fun e => e.1 == grade) with
      | some e => e.2
      | Option.none => 0
  | CardPoints.d6 => (d6roll : Int)

/-- Match state owned by the engine (game_logic.py, class Game): the two
principals, the in-control reference, the terminal flag, and the Hot Box
ally references used by Helped cards. -/
structure GameState where
  favored : Wrestler
  underdog : Wrestler
  in_control : Option Side := none
  game_over : Bool := false
  favored_ally : Option Wrestler := none
  underdog_ally : Option Wrestler := none
deriving DecidableEq, Repr

/-- The wrestler referenced by a side tag. -/
def GameState.get (g : GameState) : Side → Wrestler
  | Side.favored => g.favored
  | Side.underdog => g.underdog

/-- Replace the wrestler referenced by a side tag. -/
def GameState.set (g : GameState) : Side → Wrestler → GameState
  | Side.favored, w => { g with favored := w }
  | Side.underdog, w => { g with underdog := w }

/-- Point determination inside Game._move_wrestler (game_logic.py lines
933-941): tv cards use the per-grade payload, specialty cards use the
wrestler specialty points, signature cards roll one die, all others use
Card.get_points.  The Python code compares card.type.lower(); the embedding
represents card types in their lowercased form, so the comparison is direct
string equality. -/
def movePoints (w : Wrestler) (c : Card) (d6roll : Nat) : Int :=
  if c.type = "tv" then c.get_points w.tv_grade d6roll
  else if c.type = "specialty" then w.specialty_points
  else if c.type = "signature" then (d6roll : Int)
  else c.get_points w.tv_grade d6roll

/-- Game._move_wrestler (game_logic.py lines 927-981): determine the points,
call wrestler.score(points) (which sets the last_card_scored flag of the
mover), and if points > 0 set in_control to the mover and set the mover flag
again.  The opponent is not touched by this method. -/
def moveWrestler (g : GameState) (side : Side) (c : Card) (d6roll : Nat) :
    GameState :=
  if 0 < movePoints (g.get side) c d6roll then
    { g.set side ((g.get side).score (movePoints (g.get side) c d6roll)) with
        in_control := some side }
  else
    g.set side ((g.get side).score (movePoints (g.get side) c d6roll))

/-- Helper: reading back the side just written. -/
theorem get_set_same (g : GameState) (s : Side) (w : Wrestler) :
    (g.set s w).get s = w := by
  cases s <;> rfl

/-- Helper: writing one side leaves the other side unchanged. -/
theorem get_set_other (g : GameState) (s : Side) (w : Wrestler) :
    (g.set s w).get s.other = g.get s.other := by
  cases s <;> rfl

/-- Helper: updating in_control does not change the wrestlers. -/
theorem get_set_in_control (g : GameState) (x : Option Side) (s : Side) :
    (GameState.get { g with in_control := x } s) = g.get s := by
  cases s <;> rfl

/-- Helper: writing a wrestler does not change in_control. -/
theorem set_in_control (g : GameState) (s : Side) (w : Wrestler) :
    (g.set s w).in_control = g.in_control := by
  cases s <;> rfl

/-- Helper: writing a wrestler does not change game_over. -/
theorem set_game_over (g : GameState) (s : Side) (w : Wrestler) :
    (g.set s w).game_over = g.game_over := by
  cases s <;> rfl

/-- Game._resolve_tiebreaker_without_move (game_logic.py lines 844-856):
the trailing wrestler wins; on an exact tie the favored wrestler wins.
The Python method returns the chosen wrestler object without mutating
anything. -/
def resolveTiebreakerWithoutMove (g : GameState) : Side :=
  if g.favored.position < g.underdog.position then Side.favored
  else if g.underdog.position < g.favored.position then Side.underdog
  else Side.favored

/-- Game._resolve_tiebreaker (game_logic.py lines 824-842): same branching
as the without-move variant, but the chosen wrestler is moved with the
card. -/
def resolveTiebreaker (g : GameState) (c : Card) (d6roll : Nat) : GameState :=
  if g.favored.position < g.underdog.position then
    moveWrestler g Side.favored c d6roll
  else if g.underdog.position < g.favored.position then
    moveWrestler g Side.underdog c d6roll
  else
    moveWrestler g Side.favored c d6roll

/-- A concrete match state for evaluating theorems on concrete inputs. -/
def sampleState : GameState :=
  { favored := sampleWrestler,
    underdog := { sampleWrestler with name := "Underdog", tv_grade := TVGrade.F } }

/-- C5: the tie-break resolver is deterministic (it is a pure function of the
state, so repeated calls on the same state return the same wrestler): the
strictly-lower-position wrestler is chosen, the favored wrestler on an exact
tie, and the with-move resolver moves exactly the wrestler the without-move
resolver chooses. -/
theorem C5_tiebreaker (g : GameState) (c : Card) (r : Nat) :
    (g.favored.position < g.underdog.position →
       resolveTiebreakerWithoutMove g = Side.favored) ∧
    (g.underdog.position < g.favored.position →
       resolveTiebreakerWithoutMove g = Side.underdog) ∧
    (g.favored.position = g.underdog.position →
       resolveTiebreakerWithoutMove g = Side.favored) ∧
    resolveTiebreaker g c r = moveWrestler g (resolveTiebreakerWithoutMove g) c r := by
  unfold resolveTiebreakerWithoutMove resolveTiebreaker
  refine ⟨fun h => by simp [h], fun h => ?_, fun h => by simp [h], ?_⟩
  · have h2 : ¬ g.favored.position < g.underdog.position := by omega
    simp [h, h2]
  · split
    · simp
    · split <;> simp

/-- C5 witness: the theorem evaluated at a concrete tied state (both
principals at the same position) and a concrete card. -/
theorem C5_tiebreaker_witness :
    (sampleState.favored.position < sampleState.underdog.position →
       resolveTiebreakerWithoutMove sampleState = Side.favored) ∧
    (sampleState.underdog.position < sampleState.favored.position →
       resolveTiebreakerWithoutMove sampleState = Side.underdog) ∧
    (sampleState.favored.position = sampleState.underdog.position →
       resolveTiebreakerWithoutMove sampleState = Side.favored) ∧
    resolveTiebreaker sampleState { id := 1, control := false, type := "agile" } 3
      = moveWrestler sampleState (resolveTiebreakerWithoutMove sampleState)
          { id := 1, control := false, type := "agile" } 3 :=
  C5_tiebreaker sampleState { id := 1, control := false, type := "agile" } 3

/-- C6 (counterexample): the claim states every call of the move operation
clears the opponent scored-on-last-resolution flag.  Game._move_wrestler
never touches the opponent: with the underdog flag set beforehand and the
favored wrestler moving for 2 points, the underdog flag is still set
afterwards.  (The flags are cleared at the start of each turn by
Game.play_turn, lines 230-234, not by the move operation.) -/
theorem C6_counterexample :
    (moveWrestler
        { sampleState with underdog := { sampleState.underdog with last_card_scored := true } }
        Side.favored { id := 1, control := false, type := "agile", points := CardPoints.fixed 2 }
        1).underdog.last_card_scored = true := by
  decide

/-- C6 (amended): for every call of the move operation with resolved point
value p: the mover new position is min(old + p, 15); the mover flag is set;
the opponent flag is left unchanged (it is cleared at the start of each turn,
not by the move operation); if p > 0 the in-control reference is set to the
mover, and if p ≤ 0 it is left unchanged. -/
theorem C6_move_wrestler (g : GameState) (side : Side) (c : Card) (r : Nat) :
    ((moveWrestler g side c r).get side).position
        = min ((g.get side).position + movePoints (g.get side) c r) 15 ∧
    ((moveWrestler g side c r).get side).last_card_scored = true ∧
    ((moveWrestler g side c r).get side.other).last_card_scored
        = (g.get side.other).last_card_scored ∧
    (0 < movePoints (g.get side) c r →
       (moveWrestler g side c r).in_control = some side) ∧
    (movePoints (g.get side) c r ≤ 0 →
       (moveWrestler g side c r).in_control = g.in_control) := by
  by_cases hp : 0 < movePoints (g.get side) c r
  · have hm : moveWrestler g side c r
        = { g.set side ((g.get side).score (movePoints (g.get side) c r)) with
              in_control := some side } := by
      simp [moveWrestler, hp]
    rw [hm]
    refine ⟨?_, ?_, ?_, fun _ => rfl, fun hle => absurd hp (by omega)⟩
    · rw [get_set_in_control, get_set_same]; rfl
    · rw [get_set_in_control, get_set_same]; rfl
    · rw [get_set_in_control, get_set_other]
  · have hm : moveWrestler g side c r
        = g.set side ((g.get side).score (movePoints (g.get side) c r)) := by
      simp [moveWrestler, hp]
    rw [hm]
    refine ⟨?_, ?_, ?_, fun hlt => absurd hlt hp, fun _ => set_in_control g side _⟩
    · rw [get_set_same]; rfl
    · rw [get_set_same]; rfl
    · rw [get_set_other]

/-- C6 witness: the amended theorem evaluated on a concrete state, the
favored side and a fixed 2-point card. -/
theorem C6_move_wrestler_witness :
    ((moveWrestler sampleState Side.favored
        { id := 1, control := false, type := "agile", points := CardPoints.fixed 2 } 1).get
          Side.favored).position
        = min ((sampleState.get Side.favored).position
            + movePoints (sampleState.get Side.favored)
                { id := 1, control := false, type := "agile", points := CardPoints.fixed 2 } 1) 15 ∧
    ((moveWrestler sampleState Side.favored
        { id := 1, control := false, type := "agile", points := CardPoints.fixed 2 } 1).get
          Side.favored).last_card_scored = true ∧
    ((moveWrestler sampleState Side.favored
        { id := 1, control := false, type := "agile", points := CardPoints.fixed 2 } 1).get
          Side.favored.other).last_card_scored
        = (sampleState.get Side.favored.other).last_card_scored ∧
    (0 < movePoints (sampleState.get Side.favored)
          { id := 1, control := false, type := "agile", points := CardPoints.fixed 2 } 1 →
       (moveWrestler sampleState Side.favored
          { id := 1, control := false, type := "agile", points := CardPoints.fixed 2 } 1).in_control
         = some Side.favored) ∧
    (movePoints (sampleState.get Side.favored)
          { id := 1, control := false, type := "agile", points := CardPoints.fixed 2 } 1 ≤ 0 →
       (moveWrestler sampleState Side.favored
          { id := 1, control := false, type := "agile", points := CardPoints.fixed 2 } 1).in_control
         = sampleState.in_control) :=
  C6_move_wrestler sampleState Side.favored
    { id := 1, control := false, type := "agile", points := CardPoints.fixed 2 } 1

/-- PIN_RANGES (game_utilities.py lines 31-40): kick-out window per defender
TV grade, as a half-open pair (start, stop) mirroring the Python range
objects; membership is start ≤ r < stop.  get_pin_range defaults to the F
window for unknown grades; the grade type here covers exactly the valid
grades, so the table is total. -/
def PIN_RANGES : TVGrade → Nat × Nat
  | TVGrade.AAA => (11, 44)
  | TVGrade.AA => (11, 37)
  | TVGrade.A => (11, 34)
  | TVGrade.B => (11, 27)
  | TVGrade.C => (11, 24)
  | TVGrade.D => (11, 17)
  | TVGrade.E => (11, 14)
  | TVGrade.F => (11, 12)

/-- Membership of a roll in the kick-out window (Python: roll in
kick_out_range). -/
def inPinRange (grade : TVGrade) (r : Nat) : Bool :=
  (PIN_RANGES grade).1 ≤ r && r < (PIN_RANGES grade).2

/-- Pinner and defender determination in Game._attempt_pin (game_logic.py
lines 365-371): the favored wrestler pins when its position is greater than
or equal to the underdog position, otherwise the underdog pins. -/
def pinParticipants (g : GameState) : Wrestler × Wrestler :=
  if g.underdog.position ≤ g.favored.position then (g.favored, g.underdog)
  else (g.underdog, g.favored)

/-- Game._attempt_pin (game_logic.py lines 359-407): three sequential
two-digit rolls against the defender kick-out window; the first roll inside
the window means the defender kicks out (no state change, pin fails); if all
three land outside, game_over is set and the pinner wins.  The boolean in
the result is the pin_success flag of the returned GameResult data. -/
def attemptPin (g : GameState) (r1 r2 r3 : Nat) : GameState × Bool :=
  if inPinRange (pinParticipants g).2.tv_grade r1 then (g, false)
  else if inPinRange (pinParticipants g).2.tv_grade r2 then (g, false)
  else if inPinRange (pinParticipants g).2.tv_grade r3 then (g, false)
  else ({ g with game_over := true }, true)

/-- C2: a defender of TV grade F has kick-out window exactly {11}; for every
three rolls, all outside the defender window means the pinner wins and the
match becomes terminal, while any roll inside the window means the defender
kicks out and the match stays non-terminal. -/
theorem C2_pin (g : GameState) (r1 r2 r3 : Nat) (hgo : g.game_over = false) :
    (∀ r : Nat, inPinRange TVGrade.F r = true ↔ r = 11) ∧
    (inPinRange (pinParticipants g).2.tv_grade r1 = false ∧
     inPinRange (pinParticipants g).2.tv_grade r2 = false ∧
     inPinRange (pinParticipants g).2.tv_grade r3 = false →
       (attemptPin g r1 r2 r3).1.game_over = true ∧
       (attemptPin g r1 r2 r3).2 = true) ∧
    (inPinRange (pinParticipants g).2.tv_grade r1 = true ∨
     inPinRange (pinParticipants g).2.tv_grade r2 = true ∨
     inPinRange (pinParticipants g).2.tv_grade r3 = true →
       (attemptPin g r1 r2 r3).1.game_over = false ∧
       (attemptPin g r1 r2 r3).2 = false) := by
  refine ⟨fun r => ?_, fun h => ?_, fun h => ?_⟩
  · simp only [inPinRange, PIN_RANGES, Bool.and_eq_true, decide_eq_true_eq]
    omega
  · simp [attemptPin, h.1, h.2.1, h.2.2]
  · rcases h with h1 | h2 | h3
    · simp [attemptPin, h1, hgo]
    · simp only [attemptPin]
      split
      · exact ⟨hgo, rfl⟩
      · simp [h2, hgo]
    · simp only [attemptPin]
      split
      · exact ⟨hgo, rfl⟩
      · split
        · exact ⟨hgo, rfl⟩
        · simp [h3, hgo]

/-- C2 witness: the theorem at a concrete state (underdog, grade F, defends)
and three concrete rolls. -/
theorem C2_pin_witness :
    ((∀ r : Nat, inPinRange TVGrade.F r = true ↔ r = 11) ∧
     (inPinRange (pinParticipants sampleState).2.tv_grade 23 = false ∧
      inPinRange (pinParticipants sampleState).2.tv_grade 36 = false ∧
      inPinRange (pinParticipants sampleState).2.tv_grade 45 = false →
        (attemptPin sampleState 23 36 45).1.game_over = true ∧
        (attemptPin sampleState 23 36 45).2 = true) ∧
     (inPinRange (pinParticipants sampleState).2.tv_grade 23 = true ∨
      inPinRange (pinParticipants sampleState).2.tv_grade 36 = true ∨
      inPinRange (pinParticipants sampleState).2.tv_grade 45 = true →
        (attemptPin sampleState 23 36 45).1.game_over = false ∧
        (attemptPin sampleState 23 36 45).2 = false)) :=
  C2_pin sampleState 23 36 45 (by decide)

/-- Game._attempt_finisher (game_logic.py lines 311-357): one two-digit roll
compared inclusively against the wrestler finisher range.  Success sets
game_over (that wrestler wins); failure assigns position 9 to that wrestler
and the match continues.  A wrestler without a finisher yields a failed
result without mutation (modelled by the no-change branch).  The boolean is
the match_ended outcome. -/
def attemptFinisher (g : GameState) (side : Side) (roll : Nat) :
    GameState × Bool :=
  match (g.get side).finisher with
  | Option.none => (g, false)
  | some (lo, hi) =>
      if lo ≤ roll ∧ roll ≤ hi then ({ g with game_over := true }, true)
      else (g.set side { g.get side with position := 9 }, false)

/-- C4: for every wrestler with a finisher range and every two-digit roll,
a roll inclusively inside the own range ends the match with that wrestler as
winner (terminal flag set), and a roll outside resets that wrestler to
position 9 with the match not terminal. -/
theorem C4_finisher (g : GameState) (side : Side) (roll lo hi : Nat)
    (hf : (g.get side).finisher = some (lo, hi)) (hgo : g.game_over = false) :
    (lo ≤ roll ∧ roll ≤ hi →
       (attemptFinisher g side roll).1.game_over = true ∧
       (attemptFinisher g side roll).2 = true) ∧
    (¬ (lo ≤ roll ∧ roll ≤ hi) →
       ((attemptFinisher g side roll).1.get side).position = 9 ∧
       (attemptFinisher g side roll).1.game_over = false ∧
       (attemptFinisher g side roll).2 = false) := by
  constructor
  · intro hin
    simp [attemptFinisher, hf, hin]
  · intro hout
    have hm : attemptFinisher g side roll
        = (g.set side { g.get side with position := 9 }, false) := by
      simp [attemptFinisher, hf, hout]
    rw [hm]
    exact ⟨by rw [get_set_same], by rw [set_game_over]; exact hgo, rfl⟩

/-- C4 witness: the theorem at a concrete state whose favored wrestler has
finisher range 11-33, with the successful roll 22. -/
theorem C4_finisher_witness :
    ((11 ≤ 22 ∧ 22 ≤ 33 →
       (attemptFinisher
          { sampleState with favored := { sampleWrestler with finisher := some (11, 33) } }
          Side.favored 22).1.game_over = true ∧
       (attemptFinisher
          { sampleState with favored := { sampleWrestler with finisher := some (11, 33) } }
          Side.favored 22).2 = true) ∧
     (¬ (11 ≤ 22 ∧ 22 ≤ 33) →
       ((attemptFinisher
          { sampleState with favored := { sampleWrestler with finisher := some (11, 33) } }
          Side.favored 22).1.get Side.favored).position = 9 ∧
       (attemptFinisher
          { sampleState with favored := { sampleWrestler with finisher := some (11, 33) } }
          Side.favored 22).1.game_over = false ∧
       (attemptFinisher
          { sampleState with favored := { sampleWrestler with finisher := some (11, 33) } }
          Side.favored 22).2 = false)) :=
  C4_finisher
    { sampleState with favored := { sampleWrestler with finisher := some (11, 33) } }
    Side.favored 22 11 33 (by decide) (by decide)

/-- Escape threshold in Game._resolve_submission_card (game_logic.py lines
666-668): 4 when the opponent has the strong or powerful skill, else 3. -/
def breakThreshold (opponent : Wrestler) : Nat :=
  if opponent.has_skill "strong" || opponent.has_skill "powerful" then 4 else 3

/-- The dice loop of Game._resolve_submission_card (game_logic.py lines
677-700): consume rolls one at a time; a roll at most the threshold ends the
hold with the acting wrestler as it stands, a roll above it adds one point
via Wrestler.score and the loop repeats.  The Python loop is unbounded; the
embedding returns none when the explicit roll list runs out before an escape
roll. -/
def submissionLoop (w : Wrestler) (t : Nat) : List Nat → Option Wrestler
  | [] => none
  | r :: rs => if r ≤ t then some w else submissionLoop (w.score 1) t rs

/-- Game._resolve_submission_card (game_logic.py lines 639-711): the acting
wrestler first scores the card base points, then the dice loop runs against
the opponent threshold; afterwards the acting wrestler has last_card_scored
set and becomes the in-control wrestler. -/
def resolveSubmissionCard (g : GameState) (c : Card) (side : Side)
    (initD6 : Nat) (rolls : List Nat) : Option GameState :=
  match submissionLoop
      ((g.get side).score (c.get_points (g.get side).tv_grade initD6))
      (breakThreshold (g.get side.other)) rolls with
  | Option.none => none
  | some w2 =>
      some { g.set side { w2 with last_card_scored := true } with
               in_control := some side }

/-- Helper: whenever the submission resolution completes, the acting side is
the in-control wrestler. -/
theorem resolveSubmissionCard_in_control (g : GameState) (c : Card)
    (side : Side) (initD6 : Nat) (rolls : List Nat) (g2 : GameState)
    (h : resolveSubmissionCard g c side initD6 rolls = some g2) :
    g2.in_control = some side := by
  unfold resolveSubmissionCard at h
  cases hs : submissionLoop
      ((g.get side).score (c.get_points (g.get side).tv_grade initD6))
      (breakThreshold (g.get side.other)) rolls with
  | none => rw [hs] at h; exact absurd h (by simp)
  | some w2 =>
      rw [hs] at h
      cases side <;> (injection h with h2; rw [← h2])

/-- C3: the escape threshold is 4 when the opponent has the strong or
powerful skill and 3 otherwise; a roll at most the threshold ends the hold
with the acting wrestler unchanged; a roll above it continues the loop with
the acting wrestler advanced by exactly one point (pre-clamp increment 1,
clamped at 15 by Wrestler.score); and a completed resolution leaves the
acting wrestler in control. -/
theorem C3_submission (g : GameState) (c : Card) (side : Side) (initD6 : Nat) :
    (breakThreshold (g.get side.other)
       = if (g.get side.other).has_skill "strong"
            || (g.get side.other).has_skill "powerful" then 4 else 3) ∧
    (∀ (w : Wrestler) (r : Nat) (rs : List Nat),
       (r ≤ breakThreshold (g.get side.other) →
          submissionLoop w (breakThreshold (g.get side.other)) (r :: rs)
            = some w) ∧
       (breakThreshold (g.get side.other) < r →
          submissionLoop w (breakThreshold (g.get side.other)) (r :: rs)
              = submissionLoop (w.score 1) (breakThreshold (g.get side.other)) rs ∧
          (w.score 1).position = min (w.position + 1) 15)) ∧
    (∀ (rolls : List Nat) (g2 : GameState),
       resolveSubmissionCard g c side initD6 rolls = some g2 →
         g2.in_control = some side) := by
  refine ⟨rfl, fun w r rs => ⟨fun hle => ?_, fun hgt => ⟨?_, rfl⟩⟩,
    fun rolls g2 h => resolveSubmissionCard_in_control g c side initD6 rolls g2 h⟩
  · simp [submissionLoop, hle]
  · simp [submissionLoop, Nat.not_le.mpr hgt]

/-- C3 witness: the theorem evaluated at a concrete state, card and roll. -/
theorem C3_submission_witness :
    ((breakThreshold (sampleState.get Side.favored.other)
       = if (sampleState.get Side.favored.other).has_skill "strong"
            || (sampleState.get Side.favored.other).has_skill "powerful" then 4 else 3) ∧
    (∀ (w : Wrestler) (r : Nat) (rs : List Nat),
       (r ≤ breakThreshold (sampleState.get Side.favored.other) →
          submissionLoop w (breakThreshold (sampleState.get Side.favored.other)) (r :: rs)
            = some w) ∧
       (breakThreshold (sampleState.get Side.favored.other) < r →
          submissionLoop w (breakThreshold (sampleState.get Side.favored.other)) (r :: rs)
              = submissionLoop (w.score 1)
                  (breakThreshold (sampleState.get Side.favored.other)) rs ∧
          (w.score 1).position = min (w.position + 1) 15)) ∧
    (∀ (rolls : List Nat) (g2 : GameState),
       resolveSubmissionCard sampleState
           { id := 2, control := false, type := "agile",
             points := CardPoints.fixed 1, is_submission := true }
           Side.favored 4 rolls = some g2 →
         g2.in_control = some Side.favored)) :=
  C3_submission sampleState
    { id := 2, control := false, type := "agile",
      points := CardPoints.fixed 1, is_submission := true }
    Side.favored 4

/-- Result shape of engine operations (game_logic.py, class GameResult):
the succeeded flag and the narrative message (the structured data dict is
carried by the individual operations here). -/
structure GameResult where
  success : Bool
  message : String
deriving DecidableEq, Repr

/-- Deck state (card_manager.py, class CardManager). -/
structure CardManager where
  deck : List Card
  discard_pile : List Card
deriving DecidableEq, Repr

/-- CardManager.draw_card (card_manager.py lines 108-132): when the deck is
empty and the discard pile is not, the discard pile is shuffled back in as
the new deck with an emptied discard pile; then the front card, if any, is
popped and appended to the discard pile.  random.shuffle is passed in as the
function sh. -/
def draw_card (sh : List Card → List Card) (m : CardManager) :
    Option Card × CardManager :=
  let m1 := if m.deck.isEmpty then
              (if m.discard_pile.isEmpty then m
               else { deck := sh m.discard_pile, discard_pile := [] })
            else m
  match m1.deck with
  | [] => (none, m1)
  | c :: rest => (some c, { deck := rest, discard_pile := m1.discard_pile ++ [c] })

/-- The fragment of Game.play_turn up to drawing (game_logic.py lines
218-248): refuse when the match is over, reset both last_card_scored flags,
draw a card; with no card available return the failed result, otherwise hand
over to the rest of the turn (card resolution, pin and finisher checks and
the final position clamp), abstracted here as the continuation k.  The
wrestlers-not-selected guard precedes this fragment in Python; the embedded
GameState always carries both wrestlers. -/
def play_turn (sh : List Card → List Card) (g : GameState) (m : CardManager)
    (k : GameState → CardManager → Card → GameResult) : GameResult :=
  if g.game_over then
    { success := false, message := "The match is over. Start a new match to continue." }
  else
    match draw_card sh m with
    | (Option.none, _) =>
        { success := false, message := "No cards available. Game cannot continue." }
    | (some c, m1) =>
        k { g with favored := { g.favored with last_card_scored := false },
                   underdog := { g.underdog with last_card_scored := false } }
          m1 c

/-- Helper: explicit description of draw_card on an empty deck with a
nonempty discard pile, in terms of the shuffled discard pile. -/
theorem draw_card_reshuffle (sh : List Card → List Card) (m : CardManager)
    (c : Card) (rest : List Card) (hdeck : m.deck = [])
    (hne : m.discard_pile ≠ []) (hsh : sh m.discard_pile = c :: rest) :
    draw_card sh m = (some c, { deck := rest, discard_pile := [c] }) := by
  unfold draw_card
  simp [hdeck, hne, hsh]

/-- Helper: explicit description of draw_card on a nonempty deck. -/
theorem draw_card_pop (sh : List Card → List Card) (m : CardManager)
    (c : Card) (rest : List Card) (hdeck : m.deck = c :: rest) :
    draw_card sh m
      = (some c, { deck := rest, discard_pile := m.discard_pile ++ [c] }) := by
  unfold draw_card
  simp [hdeck]

/-- Helper: draw_card when both the deck and the discard pile are empty. -/
theorem draw_card_empty (sh : List Card → List Card) (m : CardManager)
    (hdeck : m.deck = []) (hpile : m.discard_pile = []) :
    draw_card sh m = (none, m) := by
  unfold draw_card
  simp [hdeck, hpile]

/-- C7: with an empty deck and a discard pile of n ≥ 1 cards, the next draw
reshuffles the discard pile into the deck and returns one card, leaving
n - 1 cards in the deck and exactly the drawn card in the discard pile; with
both empty, the draw yields no card and play_turn returns a failed result
(a total function, not an unhandled fault). -/
theorem C7_deck_exhaustion (sh : List Card → List Card) (m : CardManager)
    (n : Nat) (hperm : ∀ l, (sh l).Perm l) :
    (m.deck = [] → m.discard_pile.length = n → 1 ≤ n →
       ∃ c, (draw_card sh m).1 = some c ∧
         (draw_card sh m).2.deck.length = n - 1 ∧
         (draw_card sh m).2.discard_pile = [c]) ∧
    (m.deck = [] → m.discard_pile = [] →
       (draw_card sh m).1 = none ∧
       (∀ (g : GameState) (k : GameState → CardManager → Card → GameResult),
          g.game_over = false → (play_turn sh g m k).success = false)) := by
  constructor
  · intro hdeck hlen hn
    have hne : m.discard_pile ≠ [] := by
      intro hp; rw [hp] at hlen; simp at hlen; omega
    have hlensh : (sh m.discard_pile).length = n := by
      rw [(hperm m.discard_pile).length_eq, hlen]
    cases hsh : sh m.discard_pile with
    | nil => rw [hsh] at hlensh; simp at hlensh; omega
    | cons c rest =>
        rw [hsh] at hlensh
        simp only [List.length_cons] at hlensh
        refine ⟨c, ?_⟩
        rw [draw_card_reshuffle sh m c rest hdeck hne hsh]
        refine ⟨rfl, ?_, rfl⟩
        show rest.length = n - 1
        omega
  · intro hdeck hpile
    refine ⟨by rw [draw_card_empty sh m hdeck hpile], fun g k hgo => ?_⟩
    unfold play_turn
    rw [draw_card_empty sh m hdeck hpile]
    simp [hgo]

/-- Concrete cards used to evaluate deck theorems on concrete inputs. -/
def sampleCards : List Card :=
  [{ id := 1, control := false, type := "agile" },
   { id := 2, control := false, type := "tv" },
   { id := 3, control := true, type := "grudge" },
   { id := 4, control := false, type := "trailing" },
   { id := 5, control := false, type := "helped" }]

/-- C7 witness: the theorem at the identity shuffle and a concrete manager
whose deck is empty and whose discard pile holds 5 cards. -/
theorem C7_deck_exhaustion_witness :
    (({ deck := [], discard_pile := sampleCards } : CardManager).deck = [] →
     ({ deck := [], discard_pile := sampleCards } : CardManager).discard_pile.length = 5 →
     1 ≤ 5 →
       ∃ c, (draw_card id { deck := [], discard_pile := sampleCards }).1 = some c ∧
         (draw_card id { deck := [], discard_pile := sampleCards }).2.deck.length = 5 - 1 ∧
         (draw_card id { deck := [], discard_pile := sampleCards }).2.discard_pile = [c]) ∧
    (({ deck := [], discard_pile := sampleCards } : CardManager).deck = [] →
     ({ deck := [], discard_pile := sampleCards } : CardManager).discard_pile = [] →
       (draw_card id { deck := [], discard_pile := sampleCards }).1 = none ∧
       (∀ (g : GameState) (k : GameState → CardManager → Card → GameResult),
          g.game_over = false →
          (play_turn id g { deck := [], discard_pile := sampleCards } k).success = false)) :=
  C7_deck_exhaustion id { deck := [], discard_pile := sampleCards } 5
    (fun l => List.Perm.refl l)

/-- C9: a draw never creates or loses cards: the deck plus discard pile
after a draw is a permutation of the deck plus discard pile before it, and
on a nonempty deck the drawn card is removed from the front of the deck and
appended to the discard pile. -/
theorem C9_draw_conservation (sh : List Card → List Card) (m : CardManager)
    (hperm : ∀ l, (sh l).Perm l) :
    ((draw_card sh m).2.deck ++ (draw_card sh m).2.discard_pile).Perm
        (m.deck ++ m.discard_pile) ∧
    (∀ (c : Card) (rest : List Card), m.deck = c :: rest →
       (draw_card sh m).1 = some c ∧
       (draw_card sh m).2.deck = rest ∧
       (draw_card sh m).2.discard_pile = m.discard_pile ++ [c]) := by
  constructor
  · cases hdeck : m.deck with
    | nil =>
        cases hsh : sh m.discard_pile with
        | nil =>
            have hpile : m.discard_pile = [] := by
              have h0 := (hperm m.discard_pile).length_eq
              rw [hsh] at h0
              simpa using List.length_eq_zero.mp h0.symm
            rw [draw_card_empty sh m hdeck hpile]
            simp [hpile, hdeck]
        | cons c rest =>
            have hne : m.discard_pile ≠ [] := by
              intro hp
              have h0 := (hperm m.discard_pile).length_eq
              rw [hsh, hp] at h0
              simp at h0
            rw [draw_card_reshuffle sh m c rest hdeck hne hsh]
            have h1 : (rest ++ [c]).Perm (c :: rest) := List.perm_append_comm
            have h2 := hperm m.discard_pile
            rw [hsh] at h2
            simpa using h1.trans h2
    | cons c rest =>
        rw [draw_card_pop sh m c rest hdeck]
        have h1 : ((rest ++ m.discard_pile) ++ [c]).Perm
            ([c] ++ (rest ++ m.discard_pile)) :=
          List.perm_append_comm
        simpa [List.append_assoc] using h1
  · intro c rest hdeck
    rw [draw_card_pop sh m c rest hdeck]
    exact ⟨rfl, rfl, rfl⟩

/-- C9 witness: the theorem at the identity shuffle and a concrete manager
with a two-card deck and a nonempty discard pile. -/
theorem C9_draw_conservation_witness :
    ((draw_card id { deck := [sampleCards[0], sampleCards[1]],
                     discard_pile := [sampleCards[2]] }).2.deck ++
     (draw_card id { deck := [sampleCards[0], sampleCards[1]],
                     discard_pile := [sampleCards[2]] }).2.discard_pile).Perm
        ([sampleCards[0], sampleCards[1]] ++ [sampleCards[2]]) ∧
    (∀ (c : Card) (rest : List Card),
       [sampleCards[0], sampleCards[1]] = c :: rest →
       (draw_card id { deck := [sampleCards[0], sampleCards[1]],
                       discard_pile := [sampleCards[2]] }).1 = some c ∧
       (draw_card id { deck := [sampleCards[0], sampleCards[1]],
                       discard_pile := [sampleCards[2]] }).2.deck = rest ∧
       (draw_card id { deck := [sampleCards[0], sampleCards[1]],
                       discard_pile := [sampleCards[2]] }).2.discard_pile
         = [sampleCards[2]] ++ [c]) :=
  C9_draw_conservation id
    { deck := [sampleCards[0], sampleCards[1]], discard_pile := [sampleCards[2]] }
    (fun l => List.Perm.refl l)

/-- Game.set_wrestler_position (game_logic.py lines 1028-1052): the manual
override clamps the requested position into [0,15] with
min(max(0, position), 15) and returns a successful result; it does not fail
on an out-of-range request. -/
def set_wrestler_position (w : Wrestler) (pos : Int) : Wrestler × GameResult :=
  ({ w with position := min (max 0 pos) 15 },
   { success := true, message := "position set" })

/-- C8 (counterexample): the claim states that an out-of-range manual
position yields a failed result.  At the out-of-range input 20 the override
returns a successful result and silently clamps the position to 15. -/
theorem C8_counterexample :
    ¬ (0 ≤ (20 : Int) ∧ (20 : Int) ≤ 15) ∧
    (set_wrestler_position sampleWrestler 20).2.success = true ∧
    (set_wrestler_position sampleWrestler 20).1.position = 15 := by
  refine ⟨by omega, rfl, by decide⟩

/-- C8 (amended): for every integer position outside 0..15, the manual
override reports a successful result and stores the position clamped into
[0,15] (0 for negative requests, 15 for requests above 15); it never reports
a failure. -/
theorem C8_set_position_clamps (w : Wrestler) (pos : Int)
    (h : pos < 0 ∨ 15 < pos) :
    (set_wrestler_position w pos).2.success = true ∧
    (set_wrestler_position w pos).1.position = min (max 0 pos) 15 ∧
    0 ≤ (set_wrestler_position w pos).1.position ∧
    (set_wrestler_position w pos).1.position ≤ 15 := by
  refine ⟨rfl, rfl, ?_, ?_⟩
  · show (0 : Int) ≤ min (max 0 pos) 15
    omega
  · show min (max 0 pos) 15 ≤ (15 : Int)
    omega

/-- C8 witness: the amended theorem at the out-of-range input 20. -/
theorem C8_set_position_clamps_witness :
    (set_wrestler_position sampleWrestler 20).2.success = true ∧
    (set_wrestler_position sampleWrestler 20).1.position = min (max 0 20) 15 ∧
    0 ≤ (set_wrestler_position sampleWrestler 20).1.position ∧
    (set_wrestler_position sampleWrestler 20).1.position ≤ 15 :=
  C8_set_position_clamps sampleWrestler 20 (by omega)

/-- The scoring guard of Game._helped_card_logic (game_logic.py lines
543-546): points are applied when the payload is not None and not the empty
string and is a number, a string, or a dict containing the wrestler TV
grade.  On the payload variants: a fixed number and the d6 marker always
score; a per-grade dict scores only when it contains the grade; no payload
never scores. -/
def helpedScores (c : Card) (grade : TVGrade) : Bool :=
  match c.points with
  | CardPoints.none => false
  | CardPoints.fixed _ => true
  | CardPoints.d6 => true
  | CardPoints.perGrade m => (m.find? (fun e => e.1 == grade)).isSome

/-- Game._helped_card_logic (game_logic.py lines 535-571): when the scoring
guard holds, the helped wrestler scores the card points (and the
last_card_scored flag is set, as Wrestler.score already does); otherwise the
card text is surfaced as narrative only and the wrestler is untouched. -/
def helpedCardLogic (c : Card) (w : Wrestler) (d6roll : Nat) : Wrestler :=
  if helpedScores c w.tv_grade then w.score (c.get_points w.tv_grade d6roll)
  else w

/-- Game._resolve_helped_card (game_logic.py lines 506-533): with allies on
both sides the tie-break picks the beneficiary; with an ally on exactly one
side that side gets the helped logic; in every helped branch in_control is
then set to the beneficiary principal; with no ally nothing happens. -/
def resolveHelpedCard (g : GameState) (c : Card) (d6roll : Nat) : GameState :=
  match g.favored_ally, g.underdog_ally with
  | some _, some _ =>
      let winner := resolveTiebreakerWithoutMove g
      { g.set winner (helpedCardLogic c (g.get winner) d6roll) with
          in_control := some winner }
  | some _, Option.none =>
      { g.set Side.favored (helpedCardLogic c g.favored d6roll) with
          in_control := some Side.favored }
  | Option.none, some _ =>
      { g.set Side.underdog (helpedCardLogic c g.underdog d6roll) with
          in_control := some Side.underdog }
  | Option.none, Option.none => g

/-- C10: when a Helped card with no point payload (text-only) resolves with
an ally on exactly one side, both principals keep their positions, yet
in_control is set to the principal of the helped side. -/
theorem C10_helped_text_only (g : GameState) (c : Card) (d6roll : Nat)
    (hpts : c.points = CardPoints.none) :
    (∀ a, g.favored_ally = some a → g.underdog_ally = none →
       (resolveHelpedCard g c d6roll).favored.position = g.favored.position ∧
       (resolveHelpedCard g c d6roll).underdog.position = g.underdog.position ∧
       (resolveHelpedCard g c d6roll).in_control = some Side.favored) ∧
    (∀ a, g.favored_ally = none → g.underdog_ally = some a →
       (resolveHelpedCard g c d6roll).favored.position = g.favored.position ∧
       (resolveHelpedCard g c d6roll).underdog.position = g.underdog.position ∧
       (resolveHelpedCard g c d6roll).in_control = some Side.underdog) := by
  have hns : ∀ grade, helpedScores c grade = false := by
    intro grade; simp [helpedScores, hpts]
  have hid : ∀ (w : Wrestler), helpedCardLogic c w d6roll = w := by
    intro w; simp [helpedCardLogic, hns]
  constructor
  · intro a hfa hua
    simp [resolveHelpedCard, hfa, hua, hid, GameState.set]
  · intro a hfa hua
    simp [resolveHelpedCard, hfa, hua, hid, GameState.set]

/-- C10 witness: the theorem at a concrete state with a favored-side ally
only and a text-only card. -/
theorem C10_helped_text_only_witness :
    (∀ a, ({ sampleState with favored_ally := some sampleWrestler } :
              GameState).favored_ally = some a →
       ({ sampleState with favored_ally := some sampleWrestler } :
              GameState).underdog_ally = none →
       (resolveHelpedCard { sampleState with favored_ally := some sampleWrestler }
          { id := 9, control := false, type := "helped", text := some "HIGHLIGHT REEL H" }
          2).favored.position
         = ({ sampleState with favored_ally := some sampleWrestler } :
              GameState).favored.position ∧
       (resolveHelpedCard { sampleState with favored_ally := some sampleWrestler }
          { id := 9, control := false, type := "helped", text := some "HIGHLIGHT REEL H" }
          2).underdog.position
         = ({ sampleState with favored_ally := some sampleWrestler } :
              GameState).underdog.position ∧
       (resolveHelpedCard { sampleState with favored_ally := some sampleWrestler }
          { id := 9, control := false, type := "helped", text := some "HIGHLIGHT REEL H" }
          2).in_control = some Side.favored) ∧
    (∀ a, ({ sampleState with favored_ally := some sampleWrestler } :
              GameState).favored_ally = none →
       ({ sampleState with favored_ally := some sampleWrestler } :
              GameState).underdog_ally = some a →
       (resolveHelpedCard { sampleState with favored_ally := some sampleWrestler }
          { id := 9, control := false, type := "helped", text := some "HIGHLIGHT REEL H" }
          2).favored.position
         = ({ sampleState with favored_ally := some sampleWrestler } :
              GameState).favored.position ∧
       (resolveHelpedCard { sampleState with favored_ally := some sampleWrestler }
          { id := 9, control := false, type := "helped", text := some "HIGHLIGHT REEL H" }
          2).underdog.position
         = ({ sampleState with favored_ally := some sampleWrestler } :
              GameState).underdog.position ∧
       (resolveHelpedCard { sampleState with favored_ally := some sampleWrestler }
          { id := 9, control := false, type := "helped", text := some "HIGHLIGHT REEL H" }
          2).in_control = some Side.underdog) :=
  C10_helped_text_only { sampleState with favored_ally := some sampleWrestler }
    { id := 9, control := false, type := "helped", text := some "HIGHLIGHT REEL H" }
    2 rfl

end FttM
